import Mathlib

/-!
Verification of the Roxy request-routing gateway.

Shallow embedding of the core admission/routing engine:
  internal/rotation/rotator.go   (credential pool: GetKey, ReportUsage)
  the cache package              (Get, Set with TTL)
  internal/proxy/server.go       (getNextModelIndex, getTargetModel,
                                  getProviderForModel, generateCacheKey,
                                  handleProxy with the fallback retry loop)

Modelling conventions:
  - wall-clock instants are integers (seconds); time.Minute is 60;
  - Go maps are association lists in which an insert prepends, so a
    lookup sees the newest binding (observationally the map overwrite);
  - a Go []byte payload is a String;
  - float64 temperature is a rational, and the fmt.Sprintf formatting of
    temperatures as well as the sha256 digest are opaque function
    parameters carried in an environment, since no claim depends on
    their internals: the digest is applied to the exact byte stream the
    source feeds to the hash;
  - time.Now() inside one inbound request is modelled as the single
    arrival instant of that request;
  - the upstream HTTP exchange is an oracle from the outbound request
    (URL, authentication header, marshalled body) to either a transport
    error or a status code with a body.
-/

/-- Raw request/response payload bytes, modelled as a string. -/
abbrev Bytes := String

/-- One chat message of the inbound body (server.go, ChatMessage). -/
structure ChatMessage where
  role : String
  content : String
deriving DecidableEq

/-- The parsed inbound body (server.go, LLMRequest). -/
structure LLMRequest where
  model : String
  messages : List ChatMessage
  prompt : String
  maxTokens : Int
  temperature : ℚ
deriving DecidableEq

/-- strings.HasPrefix: does the string s start with p?  Stated over the
character lists so that it evaluates by kernel reduction. -/
def strStartsWith (p s : String) : Bool :=
  p.toList.isPrefixOf s.toList

/-- Lookup in a Go map modelled as an association list: first binding wins. -/
def mapLookup {β : Type} : List (String × β) → String → Option β
  | [], _ => none
  | (a, b) :: rest, k => if a = k then some b else mapLookup rest k

/-- Insert into a Go map modelled as an association list: the new binding
shadows every older one. -/
def mapInsert {β : Type} (l : List (String × β)) (k : String) (v : β) :
    List (String × β) :=
  (k, v) :: l

/-- One cache entry: raw bytes plus the absolute expiry instant
(cache package, CacheEntry). -/
structure CacheEntry where
  data : Bytes
  expiresAt : Int
deriving DecidableEq

/-- The response cache (cache package, Cache): entry map plus the TTL. -/
structure Cache where
  entries : List (String × CacheEntry)
  ttl : Int
deriving DecidableEq

/-- cache.Get: return the entry only when present and time.Now().After
(expiresAt) is false, i.e. only when now is not strictly past the expiry. -/
def Cache.Get (c : Cache) (now : Int) (key : String) : Option Bytes :=
  match mapLookup c.entries key with
  | none => none
  | some e => if now > e.expiresAt then none else some e.data

/-- cache.Set: unconditionally store the bytes with expiry now plus ttl. -/
def Cache.Set (c : Cache) (now : Int) (key : String) (data : Bytes) : Cache :=
  { c with entries := mapInsert c.entries key ⟨data, now + c.ttl⟩ }

/-- Static configuration of one API key (config.go, APIKeyConfig). -/
structure APIKeyConfig where
  key : String
  keyEnvVar : String
  provider : String
  maxRPM : Int
  maxTPM : Int
  cooldownSec : Int
deriving DecidableEq

/-- One pooled credential with its mutable counters (rotator.go, ApiKey). -/
structure ApiKey where
  config : APIKeyConfig
  usageCount : Int
  lastUsed : Int
deriving DecidableEq

/-- One minute, the counting-window length of rotator.go. -/
def minuteLen : Int := 60

/-- The counter reset of GetKey: when now is at least a minute past the
credential's lastUsed stamp its usageCount is zeroed. -/
def resetIfStale (now : Int) (k : ApiKey) : ApiKey :=
  if now - k.lastUsed ≥ minuteLen then { k with usageCount := 0 } else k

/-- The scan of KeyRotator.GetKey over the key list: skip other providers,
apply the stale reset, grant the first key whose usageCount is below its
MaxRPM.  Returns the updated key list (resets persist even on failure) and
the index of the granted key, if any. -/
def getKeyAux (now : Int) (provider : String) : List ApiKey → List ApiKey × Option Nat
  | [] => ([], none)
  | k :: rest =>
    if k.config.provider = provider then
      if (resetIfStale now k).usageCount < k.config.maxRPM then
        (resetIfStale now k :: rest, some 0)
      else
        (resetIfStale now k :: (getKeyAux now provider rest).1,
         (getKeyAux now provider rest).2.map (fun i => i + 1))
    else
      (k :: (getKeyAux now provider rest).1,
       (getKeyAux now provider rest).2.map (fun i => i + 1))

/-- KeyRotator.GetKey (rotator.go): first-fit scan with in-scan resets.
A some index models a granted *ApiKey pointer; none models the
no-available-keys error. -/
def KeyRotator.GetKey (keys : List ApiKey) (provider : String) (now : Int) :
    List ApiKey × Option Nat :=
  getKeyAux now provider keys

/-- Replace the element at an index, identity when out of range. -/
def modifyAt {α : Type} (f : α → α) : List α → Nat → List α
  | [], _ => []
  | a :: rest, 0 => f a :: rest
  | a :: rest, n + 1 => a :: modifyAt f rest n

/-- KeyRotator.ReportUsage (rotator.go): increment the key's usageCount and
stamp its lastUsed with the current time.  The granted pointer is modelled
by the key's position in the list, which every operation preserves. -/
def KeyRotator.ReportUsage (keys : List ApiKey) (idx : Nat) (now : Int) :
    List ApiKey :=
  modifyAt (fun k => { k with usageCount := k.usageCount + 1, lastUsed := now }) keys idx

/-- One model substitution rule (config.go, ModelRule). -/
structure ModelRule where
  sourceModel : String
  targetModels : List String
  selectionPolicy : String
deriving DecidableEq

/-- Provider base URLs (config.go, ProviderConfig). -/
structure ProviderConfig where
  openAIBaseURL : String
  anthropicBaseURL : String
  openRouterBaseURL : String
  chutesBaseURL : String
deriving DecidableEq

/-- getProviderForModel (server.go): classification by model-name start,
defaulting to openai. -/
def getProviderForModel (model : String) : String :=
  if strStartsWith "gpt-" model then "openai"
  else if strStartsWith "claude-" model then "anthropic"
  else if strStartsWith "openrouter/" model then "openrouter"
  else if strStartsWith "chutes/" model then "chutes"
  else "openai"

/-- getNextModelIndex (server.go): advance the per-model counter by one
modulo the number of targets and return the new value together with the
updated counter map. -/
def getNextModelIndex (counters : List (String × Nat)) (model : String)
    (total : Nat) : Nat × List (String × Nat) :=
  let current := (mapLookup counters model).getD 0
  let next := (current + 1) % total
  (next, mapInsert counters model next)

/-- The candidate probe of getTargetModel's fallback arm: walk the target
models in order, and for the first one whose provider can grant a key,
immediately report that key back (the source comments this as returning
the key to the pool, but ReportUsage increments its usage counter) and
return the candidate.  The rotator threads through, so resets made by
failed probes persist. -/
def fallbackScan (now : Int) : List ApiKey → List String →
    List ApiKey × Option (String × String)
  | rot, [] => (rot, none)
  | rot, model :: rest =>
    let provider := getProviderForModel model
    match KeyRotator.GetKey rot provider now with
    | (rot', some idx) => (KeyRotator.ReportUsage rot' idx now, some (model, provider))
    | (rot', none) => fallbackScan now rot' rest

/-- The rule loop of getTargetModel (server.go): the first rule whose
sourceModel matches is applied; a fallback rule with no grantable
candidate falls through to later rules; with no applicable rule the
source model itself is the target.  Returns the updated counter map and
rotator together with the chosen (model, provider). -/
def getTargetModelAux (now : Int) (randIntn : Nat → Nat) :
    List ModelRule → List (String × Nat) → List ApiKey → String →
    List (String × Nat) × List ApiKey × String × String
  | [], counters, rot, sourceModel =>
    (counters, rot, sourceModel, getProviderForModel sourceModel)
  | rule :: rest, counters, rot, sourceModel =>
    if rule.sourceModel = sourceModel then
      if rule.selectionPolicy = "random" then
        let model := rule.targetModels.getD (randIntn rule.targetModels.length) ""
        (counters, rot, model, getProviderForModel model)
      else if rule.selectionPolicy = "roundrobin" then
        let p := getNextModelIndex counters sourceModel rule.targetModels.length
        let model := rule.targetModels.getD p.1 ""
        (p.2, rot, model, getProviderForModel model)
      else if rule.selectionPolicy = "fallback" then
        match fallbackScan now rot rule.targetModels with
        | (rot', some (model, provider)) => (counters, rot', model, provider)
        | (rot', none) => getTargetModelAux now randIntn rest counters rot' sourceModel
      else getTargetModelAux now randIntn rest counters rot sourceModel
    else getTargetModelAux now randIntn rest counters rot sourceModel

/-- The full server state shared across requests: rules, provider base
URLs, round-robin counters, credential pool and response cache. -/
structure ServerState where
  modelRules : List ModelRule
  providers : ProviderConfig
  modelCounters : List (String × Nat)
  rotator : List ApiKey
  cache : Cache
deriving DecidableEq

/-- The outbound upstream request: target URL, the authentication header
set from the selected credential, and the re-marshalled body. -/
structure UpstreamCall where
  url : String
  auth : Option (String × String)
  reqBody : LLMRequest
deriving DecidableEq

/-- What the upstream exchange produced: a transport error (client.Do
returned an error) or a status code with a response body. -/
inductive UpstreamResult where
  | transportError
  | response (status : Nat) (body : Bytes)
deriving DecidableEq

/-- What the handler finally did: an HTTP reply, the administrative
command side channel, or the nil-response dereference the fallback loop
can leave behind. -/
inductive Outcome where
  | reply (status : Nat) (body : Bytes)
  | commandHandled
  | panicked
deriving DecidableEq

/-- The observable effect of one inbound request: the reply, the server
state afterwards, and the upstream calls issued, in order. -/
structure HandleResult where
  outcome : Outcome
  state : ServerState
  calls : List UpstreamCall
deriving DecidableEq

/-- The collaborators the handler consults, kept opaque: body parsing
(encoding/json), the sha256 digest over the fingerprint byte stream, the
fmt float rendering, rand.Intn and the upstream HTTP client. -/
structure Env where
  parse : String → Option LLMRequest
  hash : String → String
  fmtTemp : ℚ → String
  randIntn : Nat → Nat
  upstream : UpstreamCall → UpstreamResult

/-- The exact byte stream generateCacheKey (server.go) feeds to the
sha256 digest: model, then each message's role and content in order,
then the decimal MaxTokens, then the formatted Temperature, with no
separators between fields. -/
def cacheKeyInput (fmtTemp : ℚ → String) (req : LLMRequest) : String :=
  req.model
    ++ String.join (req.messages.map (fun m => m.role ++ m.content))
    ++ toString req.maxTokens
    ++ fmtTemp req.temperature

/-- generateCacheKey (server.go): the digest of the fingerprint stream. -/
def generateCacheKey (hash : String → String) (fmtTemp : ℚ → String)
    (req : LLMRequest) : String :=
  hash (cacheKeyInput fmtTemp req)

/-- The fields the spec names as determining the fingerprint: model name,
the ordered messages, max-tokens and temperature. -/
def fingerprintFieldsEq (r1 r2 : LLMRequest) : Prop :=
  r1.model = r2.model ∧ r1.messages = r2.messages ∧
    r1.maxTokens = r2.maxTokens ∧ r1.temperature = r2.temperature

instance (r1 r2 : LLMRequest) : Decidable (fingerprintFieldsEq r1 r2) := by
  unfold fingerprintFieldsEq; infer_instance

/-- The provider switch before the first upstream call (server.go):
openai and anthropic map to base URL plus suffix, everything else is the
Unsupported provider branch. -/
def providerTargetURL (p : ProviderConfig) (provider : String) : Option String :=
  if provider = "openai" then some (p.openAIBaseURL ++ "/chat/completions")
  else if provider = "anthropic" then some (p.anthropicBaseURL ++ "/complete")
  else none

/-- The authentication header the handler sets: bearer token for openai,
the custom key header for anthropic, nothing otherwise. -/
def authHeaderFor (provider secret : String) : Option (String × String) :=
  if provider = "openai" then some ("Authorization", "Bearer " ++ secret)
  else if provider = "anthropic" then some ("X-Api-Key", secret)
  else none

/-- The secret string of the pooled key at an index. -/
def keySecretAt (keys : List ApiKey) (idx : Nat) : String :=
  ((keys.get? idx).map (fun k => k.config.key)).getD ""

/-- The rule search of the retry block (server.go line 229): the first
rule whose sourceModel equals the *current* request model - which at
that point has already been overwritten with the substituted target -
and whose policy is fallback. -/
def findFallbackRule (rules : List ModelRule) (m : String) : Option ModelRule :=
  rules.find? (fun rule => rule.sourceModel == m && rule.selectionPolicy == "fallback")

/-- The running state of the retry loop: the current response (none
models the nil *http.Response left by a transport error), whether that
response's body has already been closed, the rotator, and the calls
issued so far. -/
structure LoopState where
  resp : Option (Nat × Bytes)
  respClosed : Bool
  rot : List ApiKey
  calls : List UpstreamCall
deriving DecidableEq

/-- The retry loop over targetModels[1:] (server.go lines 232-275): for
each candidate, acquire a key for its inferred provider (skipping on
failure, with the scan resets kept), rewrite the request model, build
the URL - empty for providers outside the switch - issue the call, stop
at a status-200 response, otherwise close the body and continue.  Keys
acquired here are never reported back. -/
def fallbackLoopAux (env : Env) (pcfg : ProviderConfig) (now : Int)
    (req0 : LLMRequest) : List String → LoopState → LoopState
  | [], ls => ls
  | nextModel :: rest, ls =>
    let nextProvider := getProviderForModel nextModel
    match KeyRotator.GetKey ls.rot nextProvider now with
    | (rot', none) => fallbackLoopAux env pcfg now req0 rest { ls with rot := rot' }
    | (rot', some idx) =>
      let call : UpstreamCall :=
        { url := (providerTargetURL pcfg nextProvider).getD "",
          auth := authHeaderFor nextProvider (keySecretAt rot' idx),
          reqBody := { req0 with model := nextModel } }
      match env.upstream call with
      | .transportError =>
        fallbackLoopAux env pcfg now req0 rest
          { resp := none, respClosed := false, rot := rot', calls := ls.calls ++ [call] }
      | .response s b =>
        if s = 200 then
          { resp := some (s, b), respClosed := false, rot := rot', calls := ls.calls ++ [call] }
        else
          fallbackLoopAux env pcfg now req0 rest
            { resp := some (s, b), respClosed := true, rot := rot', calls := ls.calls ++ [call] }

/-- The tail of the miss path, from the final response onwards
(server.go lines 281-295): a nil response left by the retry loop is a
panic; a response whose body the loop closed fails the final read with a
500; otherwise the response is forwarded, a status-200 body being stored
first under the fingerprint of the original request.  The deferred
ReportUsage of the first acquired credential fires in every case. -/
def finishResponse (st : ServerState) (now : Int) (cacheKey : String)
    (cs : List (String × Nat)) (kIdx : Nat) (ls : LoopState) : HandleResult :=
  match ls.resp with
  | none =>
    { outcome := .panicked,
      state := { st with
                 modelCounters := cs
                 rotator := KeyRotator.ReportUsage ls.rot kIdx now },
      calls := ls.calls }
  | some (s, b) =>
    if ls.respClosed then
      { outcome := .reply 500 "Failed to read response",
        state := { st with
                   modelCounters := cs
                   rotator := KeyRotator.ReportUsage ls.rot kIdx now },
        calls := ls.calls }
    else
      { outcome := .reply s b,
        state := { st with
                   modelCounters := cs
                   cache := if s = 200 then Cache.Set st.cache now cacheKey b else st.cache
                   rotator := KeyRotator.ReportUsage ls.rot kIdx now },
        calls := ls.calls }

/-- The cache-miss continuation of handleProxy (server.go lines 170-296):
resolve the target, acquire a credential (the deferred ReportUsage of
that credential fires on every exit path below), issue the first call,
run the retry loop on a 429 when a fallback rule matches the substituted
model, then store a status-200 body in the cache under the fingerprint
computed from the original request and forward the final response.  A
response whose body the loop closed fails the final read with a 500; a
nil response left by the loop is a panic. -/
def proxyMiss (env : Env) (st : ServerState) (now : Int) (req : LLMRequest)
    (cacheKey : String) : HandleResult :=
  match getTargetModelAux now env.randIntn st.modelRules st.modelCounters st.rotator req.model with
  | (cs, rot1, targetModel, provider) =>
    match KeyRotator.GetKey rot1 provider now with
    | (rot2, none) =>
      { outcome := .reply 429 "No available API keys",
        state := { st with modelCounters := cs, rotator := rot2 }, calls := [] }
    | (rot2, some kIdx) =>
      match providerTargetURL st.providers provider with
      | none =>
        { outcome := .reply 400 "Unsupported provider",
          state := { st with
                     modelCounters := cs
                     rotator := KeyRotator.ReportUsage rot2 kIdx now },
          calls := [] }
      | some url =>
        let call1 : UpstreamCall :=
          { url := url,
            auth := authHeaderFor provider (keySecretAt rot2 kIdx),
            reqBody := { req with model := targetModel } }
        match env.upstream call1 with
        | .transportError =>
          { outcome := .reply 502 "Provider request failed",
            state := { st with
                       modelCounters := cs
                       rotator := KeyRotator.ReportUsage rot2 kIdx now },
            calls := [call1] }
        | .response s1 b1 =>
          let ls0 : LoopState :=
            { resp := some (s1, b1), respClosed := false, rot := rot2, calls := [call1] }
          finishResponse st now cacheKey cs kIdx
            (if s1 = 429 then
              match findFallbackRule st.modelRules targetModel with
              | some rule => fallbackLoopAux env st.providers now
                  { req with model := targetModel } (rule.targetModels.drop 1) ls0
              | none => ls0
            else ls0)

/-- handleProxy (server.go): command side channel, body parse, cache
lookup, then the miss path. -/
def handleProxy (env : Env) (st : ServerState) (now : Int) (body : String) :
    HandleResult :=
  if strStartsWith "#roxy" body then
    { outcome := .commandHandled, state := st, calls := [] }
  else
    match env.parse body with
    | none => { outcome := .reply 400 "Invalid request format", state := st, calls := [] }
    | some req =>
      match Cache.Get st.cache now (generateCacheKey env.hash env.fmtTemp req) with
      | some cached => { outcome := .reply 200 cached, state := st, calls := [] }
      | none => proxyMiss env st now req (generateCacheKey env.hash env.fmtTemp req)

/-- The Go method Server.getTargetModel, as the state transformer it is:
it may advance a round-robin counter and, in the fallback arm, mutate
the rotator. -/
def getTargetModel (env : Env) (st : ServerState) (now : Int)
    (sourceModel : String) : ServerState × String × String :=
  match getTargetModelAux now env.randIntn st.modelRules st.modelCounters st.rotator sourceModel with
  | (cs, rot, model, provider) =>
    ({ st with modelCounters := cs, rotator := rot }, model, provider)

/-- The usage a credential counts for the budget check once the stale
reset has been taken into account: zero when a minute has passed since
its last recorded use, its stored count otherwise. -/
def effectiveUsage (now : Int) (k : ApiKey) : Int :=
  if now - k.lastUsed ≥ minuteLen then 0 else k.usageCount

/-- The index of the first credential of the given provider whose
reset-adjusted usage is below its budget: the first-fit selection of the
pool, stated independently of the scan's state updates. -/
def firstFitIdx (now : Int) (p : String) : List ApiKey → Option Nat
  | [] => none
  | k :: rest =>
    if k.config.provider = p ∧ effectiveUsage now k < k.config.maxRPM then some 0
    else (firstFitIdx now p rest).map (fun i => i + 1)

/-- Every pooled credential's usage counter sits inside its budget. -/
def usageBounded (keys : List ApiKey) : Prop :=
  ∀ k ∈ keys, 0 ≤ k.usageCount ∧ k.usageCount ≤ k.config.maxRPM

instance (keys : List ApiKey) : Decidable (usageBounded keys) := by
  unfold usageBounded; infer_instance

/-- Modelled from the spec, section 3: the credential record with a
windowStart field, the timestamp the current counting window began,
advanced exactly when the window elapses. -/
structure SpecCredential where
  provider : String
  maxRequestsPerMinute : Int
  usageCount : Int
  windowStart : Int
  lastUsed : Int
deriving DecidableEq

/-- Modelled from the spec, section 4.1: when the current time is at
least one window-length past windowStart, the usage count is reset and
windowStart advanced to now before the budget check. -/
def specWindowReset (now : Int) (k : SpecCredential) : SpecCredential :=
  if now - k.windowStart ≥ minuteLen then
    { k with usageCount := 0, windowStart := now }
  else k

/-- Modelled from the spec, section 4.1: acquire(provider) scans the
credentials of the provider in insertion order, applies the window
reset, and returns the first credential whose usageCount is below
maxRequestsPerMinute; Exhausted (none) otherwise. -/
def acquireSpec (now : Int) (provider : String) :
    List SpecCredential → List SpecCredential × Option Nat
  | [] => ([], none)
  | k :: rest =>
    if k.provider = provider then
      if (specWindowReset now k).usageCount < k.maxRequestsPerMinute then
        (specWindowReset now k :: rest, some 0)
      else
        (specWindowReset now k :: (acquireSpec now provider rest).1,
         (acquireSpec now provider rest).2.map (fun i => i + 1))
    else
      (k :: (acquireSpec now provider rest).1,
       (acquireSpec now provider rest).2.map (fun i => i + 1))

/-- Modelled from the spec, section 4.1: release increments usageCount
by one and stamps lastUsed. -/
def releaseSpec (keys : List SpecCredential) (idx : Nat) (now : Int) :
    List SpecCredential :=
  modifyAt (fun k => { k with usageCount := k.usageCount + 1, lastUsed := now }) keys idx

/-- Iterated sequential resolutions of one source model, collecting the
chosen target models in order. -/
def rrResolveTrace (env : Env) (st : ServerState) (now : Int) (src : String) :
    Nat → ServerState × List String
  | 0 => (st, [])
  | n + 1 =>
    match getTargetModel env st now src with
    | (st', model, _) =>
      match rrResolveTrace env st' now src n with
      | (st'', ms) => (st'', model :: ms)

/-- An environment whose collaborators are all trivial, for concrete
evaluation of paths that never consult them. -/
def envTriv : Env :=
  { parse := fun _ => none
    hash := fun s => s
    fmtTemp := fun _ => ""
    randIntn := fun _ => 0
    upstream := fun _ => .transportError }

/-- A fresh openai credential with a generous budget. -/
def oaKey : ApiKey := ⟨⟨"sk", "", "openai", 10, 100, 0⟩, 0, 0⟩

/-- A fresh chutes credential with a generous budget. -/
def chKey : ApiKey := ⟨⟨"ck", "", "chutes", 10, 100, 0⟩, 0, 0⟩

/-- A server state with no rules, one openai credential and an empty
cache with a 300-second TTL. -/
def baseState : ServerState :=
  { modelRules := []
    providers := ⟨"u", "a", "", ""⟩
    modelCounters := []
    rotator := [oaKey]
    cache := ⟨[], 300⟩ }

/-- A server state holding one roundrobin rule mapping src to A, B, C. -/
def rrState : ServerState :=
  { modelRules := [⟨"src", ["A", "B", "C"], "roundrobin"⟩]
    providers := ⟨"u", "a", "", ""⟩
    modelCounters := []
    rotator := []
    cache := ⟨[], 300⟩ }

/-- A fallback rule whose first target differs from its source model,
over a single openai credential. -/
def c1State : ServerState :=
  { modelRules := [⟨"src", ["gpt-A", "gpt-B"], "fallback"⟩]
    providers := ⟨"u", "a", "", ""⟩
    modelCounters := []
    rotator := [oaKey]
    cache := ⟨[], 300⟩ }

/-- An inbound request for the source model src. -/
def c1Req : LLMRequest := ⟨"src", [], "", 0, 0⟩

/-- An environment in which the upstream rate-limits every model except
gpt-B, which succeeds. -/
def c1Env : Env :=
  { parse := fun s => if s = "body" then some c1Req else none
    hash := fun s => s
    fmtTemp := fun _ => "T"
    randIntn := fun _ => 0
    upstream := fun c =>
      if c.reqBody.model = "gpt-B" then .response 200 "OK" else .response 429 "RL" }

/-- A fallback rule whose first target equals its source model, over one
openai and one anthropic credential. -/
def c3State : ServerState :=
  { modelRules := [⟨"gpt-A", ["gpt-A", "claude-B"], "fallback"⟩]
    providers := ⟨"u", "a", "", ""⟩
    modelCounters := []
    rotator := [oaKey, ⟨⟨"sk2", "", "anthropic", 10, 100, 0⟩, 0, 0⟩]
    cache := ⟨[], 300⟩ }

/-- An inbound request for gpt-A. -/
def c3Req : LLMRequest := ⟨"gpt-A", [], "", 0, 0⟩

/-- An environment in which gpt-A is rate-limited and claude-B
succeeds. -/
def c3Env : Env :=
  { parse := fun s => if s = "body" then some c3Req else none
    hash := fun s => s
    fmtTemp := fun _ => "T"
    randIntn := fun _ => 0
    upstream := fun c =>
      if c.reqBody.model = "claude-B" then .response 200 "OK" else .response 429 "RL" }

/-- A credential whose budget is a single request per minute. -/
def c4Key : ApiKey := ⟨⟨"sk", "", "openai", 1, 1, 0⟩, 0, 0⟩

/-- A credential with a budget of two requests per minute, fresh at
instant zero. -/
def c7Key : ApiKey := ⟨⟨"sk", "", "openai", 2, 100, 0⟩, 0, 0⟩

/-- The pool after two acquire/release cycles at instants 0 and 50:
usage two, last use at 50. -/
def c7CodeAfter : List ApiKey :=
  KeyRotator.ReportUsage
    (KeyRotator.GetKey
      (KeyRotator.ReportUsage (KeyRotator.GetKey [c7Key] "openai" 0).1 0 0)
      "openai" 50).1
    0 50

/-- The spec-side credential mirroring c7Key: window opened at zero. -/
def c7SpecKey : SpecCredential := ⟨"openai", 2, 0, 0, 0⟩

/-- The spec-side pool after the same two acquire/release cycles. -/
def c7SpecAfter : List SpecCredential :=
  releaseSpec
    (acquireSpec 50 "openai"
      (releaseSpec (acquireSpec 0 "openai" [c7SpecKey]).1 0 0)).1
    0 50

/-- Two requests that differ in the model name yet feed the identical
byte stream to the digest: the concatenation moves the letter b from
the model into the first message's role. -/
def c5a : LLMRequest := ⟨"ab", [⟨"c", "d"⟩], "", 0, 0⟩

/-- The colliding partner of c5a. -/
def c5b : LLMRequest := ⟨"a", [⟨"bc", "d"⟩], "", 0, 0⟩

/-- Two requests identical in every determining field, differing only in
the prompt field, which the digest ignores. -/
def w5a : LLMRequest := ⟨"m", [], "p1", 0, 0⟩

/-- The partner of w5a. -/
def w5b : LLMRequest := ⟨"m", [], "p2", 0, 0⟩

/-- An inbound request for a model with no matching rule, classified to
openai by default. -/
def w6Req : LLMRequest := ⟨"m", [], "", 0, 0⟩

/-- An environment whose upstream always succeeds with body OK. -/
def w6Env : Env :=
  { parse := fun s => if s = "B" then some w6Req else none
    hash := fun s => s
    fmtTemp := fun _ => "T"
    randIntn := fun _ => 0
    upstream := fun _ => .response 200 "OK" }

/-- An inbound request whose name classifies to the chutes provider. -/
def c10Req : LLMRequest := ⟨"chutes/x", [], "", 0, 0⟩

/-- An environment resolving the chutes-bound request. -/
def c10Env : Env :=
  { parse := fun s => if s = "body" then some c10Req else none
    hash := fun s => s
    fmtTemp := fun _ => "T"
    randIntn := fun _ => 0
    upstream := fun _ => .response 200 "OK" }

/-- A server state holding a chutes credential with remaining budget. -/
def c10WState : ServerState :=
  { modelRules := []
    providers := ⟨"u", "a", "", ""⟩
    modelCounters := []
    rotator := [chKey]
    cache := ⟨[], 300⟩ }

/-- A cache holding one entry that expires exactly at instant 100. -/
def c8Cache : Cache := ⟨[("k", ⟨"D", 100⟩)], 300⟩

/-! Helper lemmas shared by several claim theorems. -/

theorem resetIfStale_usage (now : Int) (k : ApiKey) :
    (resetIfStale now k).usageCount = effectiveUsage now k := by
  unfold resetIfStale effectiveUsage
  split <;> rfl

theorem generateCacheKey_congr (hash : String → String) (fmtTemp : ℚ → String)
    (r1 r2 : LLMRequest) (h : fingerprintFieldsEq r1 r2) :
    generateCacheKey hash fmtTemp r1 = generateCacheKey hash fmtTemp r2 := by
  obtain ⟨h1, h2, h3, h4⟩ := h
  unfold generateCacheKey cacheKeyInput
  rw [h1, h2, h3, h4]

theorem handleProxy_as_miss (env : Env) (st : ServerState) (now : Int)
    (body : String) (req : LLMRequest)
    (hc : strStartsWith "#roxy" body = false) (hp : env.parse body = some req)
    (hm : Cache.Get st.cache now (generateCacheKey env.hash env.fmtTemp req) = none) :
    handleProxy env st now body
      = proxyMiss env st now req (generateCacheKey env.hash env.fmtTemp req) := by
  simp [handleProxy, hc, hp, hm]

/-- Claim C9: an inbound body that is neither an administrative command
nor valid JSON is answered with the 400 Invalid request format reply;
the server state - in particular every credential's usage counter - is
unchanged and no upstream call is made. -/
theorem C9_malformed_request (env : Env) (st : ServerState) (now : Int)
    (body : String)
    (hc : strStartsWith "#roxy" body = false) (hp : env.parse body = none) :
    handleProxy env st now body
      = { outcome := .reply 400 "Invalid request format", state := st, calls := [] } := by
  simp [handleProxy, hc, hp]

/-- Witness for C9 at a concrete malformed body. -/
theorem C9_malformed_request_witness :
    handleProxy envTriv baseState 0 "notjson"
      = { outcome := .reply 400 "Invalid request format", state := baseState, calls := [] } :=
  C9_malformed_request envTriv baseState 0 "notjson" (by decide) rfl

/-- Claim C8 counterexample: at the instant exactly equal to an entry's
expiry the lookup still returns the entry, although the claim states an
entry is never returned once the current time is at or past its expiry:
the staleness test of Get is strict. -/
theorem C8_counterexample :
    mapLookup c8Cache.entries "k" = some ⟨"D", 100⟩ ∧
    Cache.Get c8Cache 100 "k" = some "D" := by decide

/-- Claim C8 (amended): a lookup never returns an entry once the current
time is strictly past its expiry - at the exact expiry instant the entry
is still served - and store unconditionally writes the bytes with expiry
now plus ttl, shadowing any prior entry for that key while entries of
other keys are unaffected. -/
theorem C8_cache_amended (c : Cache) (now : Int) (key k' : String) (d : Bytes) :
    (∀ e, mapLookup c.entries key = some e → now > e.expiresAt →
        Cache.Get c now key = none) ∧
    mapLookup (Cache.Set c now key d).entries key = some ⟨d, now + c.ttl⟩ ∧
    (k' ≠ key → mapLookup (Cache.Set c now key d).entries k' = mapLookup c.entries k') := by
  refine ⟨?_, ?_, ?_⟩
  · intro e he h
    unfold Cache.Get
    rw [he]
    simp [h]
  · simp [Cache.Set, mapInsert, mapLookup]
  · intro hne
    simp [Cache.Set, mapInsert, mapLookup, Ne.symm hne]

/-- Witness for C8 at a concrete cache, one second past the expiry. -/
theorem C8_cache_amended_witness :
    Cache.Get c8Cache 101 "k" = none ∧
    mapLookup (Cache.Set c8Cache 101 "k" "E").entries "k" = some ⟨"E", 401⟩ ∧
    mapLookup (Cache.Set c8Cache 101 "k" "E").entries "j" = mapLookup c8Cache.entries "j" :=
  ⟨(C8_cache_amended c8Cache 101 "k" "j" "E").1 ⟨"D", 100⟩ (by decide) (by decide),
   ((C8_cache_amended c8Cache 101 "k" "j" "E").2.1).trans (by decide),
   (C8_cache_amended c8Cache 101 "k" "j" "E").2.2 (by decide)⟩

/-- Claim C2 counterexample: for the roundrobin rule src to A, B, C with
a fresh counter, the first three sequential resolutions visit B, C, A -
not A, B, C as claimed - because the cursor is advanced before it is
read, so the cycle is entered at the second target. -/
theorem C2_counterexample :
    (rrResolveTrace envTriv rrState 0 "src" 3).2 = ["B", "C", "A"] ∧
    (rrResolveTrace envTriv rrState 0 "src" 3).2 ≠ ["A", "B", "C"] := by decide

/-- Claim C2 (amended): each resolution advances the per-source-model
cursor by one modulo the number of targets and returns the target at the
new cursor position; with a fresh cursor the sequential visit order is
therefore B, C, A, B, C, A, and so on - the fixed cycle entered at the
second target. -/
theorem C2_roundrobin_amended (env : Env) (st : ServerState) (now : Int)
    (src : String) (ts : List String)
    (hrule : st.modelRules = [⟨src, ts, "roundrobin"⟩]) (hts : ts ≠ []) :
    (getTargetModel env st now src).2.1
      = ts.getD (((mapLookup st.modelCounters src).getD 0 + 1) % ts.length) "" ∧
    mapLookup (getTargetModel env st now src).1.modelCounters src
      = some (((mapLookup st.modelCounters src).getD 0 + 1) % ts.length) ∧
    (rrResolveTrace envTriv rrState 0 "src" 6).2 = ["B", "C", "A", "B", "C", "A"] := by
  refine ⟨?_, ?_, by decide⟩ <;>
  · unfold getTargetModel
    rw [hrule]
    simp [getTargetModelAux, getNextModelIndex, mapInsert, mapLookup]

/-- Witness for C2 at the concrete roundrobin state. -/
theorem C2_roundrobin_amended_witness :
    (getTargetModel envTriv rrState 0 "src").2.1 = "B" ∧
    mapLookup (getTargetModel envTriv rrState 0 "src").1.modelCounters "src" = some 1 := by
  obtain ⟨h1, h2, h3⟩ :=
    C2_roundrobin_amended envTriv rrState 0 "src" ["A", "B", "C"] rfl (by decide)
  exact ⟨h1.trans (by decide), h2.trans (by decide)⟩

/-- Claim C7 counterexample: after two acquire/release cycles at instants
0 and 50 against a budget of two, an acquire at instant 70 - one full
minute past the credential's window start at 0 - is refused by the code,
whose reset is keyed to the last use (50), while the acquire the claim
describes, with the reset keyed to the window start, resets and grants. -/
theorem C7_counterexample :
    (KeyRotator.GetKey c7CodeAfter "openai" 70).2 = none ∧
    (acquireSpec 70 "openai" c7SpecAfter).2 = some 0 ∧
    (70 : Int) - c7SpecKey.windowStart ≥ minuteLen := by decide

/-- Claim C7 (amended): acquire scans the credentials in insertion order
and grants the first credential of the provider whose usage count -
reset to zero when at least one minute has passed since the credential's
last recorded use, not since its window start - is strictly below its
budget; it errs exactly when no credential passes this first-fit check. -/
theorem C7_acquire_amended (keys : List ApiKey) (p : String) (now : Int) :
    (KeyRotator.GetKey keys p now).2 = firstFitIdx now p keys := by
  unfold KeyRotator.GetKey
  induction keys with
  | nil => rfl
  | cons k rest ih =>
    by_cases hp : k.config.provider = p
    · by_cases hb : effectiveUsage now k < k.config.maxRPM
      · simp [getKeyAux, firstFitIdx, hp, hb, resetIfStale_usage]
      · simp [getKeyAux, firstFitIdx, hp, hb, resetIfStale_usage, ih]
    · simp [getKeyAux, firstFitIdx, hp, ih]

/-- Claim C1: for the fallback rule src to gpt-A, gpt-B, an inbound
request for src whose first attempt (gpt-A) is rate-limited is answered
with that 429 after exactly one upstream call - gpt-B is never tried,
although its provider has budget and the upstream would answer it with
200 - because the retry block looks for a rule whose sourceModel equals
the request model after substitution (gpt-A), not the original (src). -/
theorem C1_fallback_not_chained :
    (handleProxy c1Env c1State 0 "body").calls.map (fun c => c.reqBody.model)
      = ["gpt-A"] ∧
    (handleProxy c1Env c1State 0 "body").outcome = .reply 429 "RL" ∧
    c1Env.upstream
      { url := "u/chat/completions"
        auth := some ("Authorization", "Bearer sk")
        reqBody := { c1Req with model := "gpt-B" } } = .response 200 "OK" := by decide

/-- Claim C3: in the masked fallback scenario (source model equals the
first target) where gpt-A is rate-limited and claude-B succeeds, two
upstream attempts are made - one per credential - yet the openai
credential is charged two usage units (the fallback probe of
getTargetModel reports it although no call was made with it there, plus
the deferred report) and the anthropic credential, although attempted,
is charged none: the retry loop never reports the keys it acquires. -/
theorem C3_usage_accounting_eval :
    (handleProxy c3Env c3State 0 "body").calls.map (fun c => c.reqBody.model)
      = ["gpt-A", "claude-B"] ∧
    (handleProxy c3Env c3State 0 "body").state.rotator.map (fun k => k.usageCount)
      = [2, 0] ∧
    (handleProxy c3Env c3State 0 "body").outcome = .reply 200 "OK" := by decide

/-- Claim C5 counterexample: the requests c5a and c5b differ in the model
name, a determining field, yet the digest input - fields concatenated
with no separators - is the identical byte stream, so the cache key is
the same no matter the digest; the claimed injectivity fails. -/
theorem C5_counterexample :
    generateCacheKey (fun s => s) (fun _ => "T") c5a
      = generateCacheKey (fun s => s) (fun _ => "T") c5b ∧
    cacheKeyInput (fun _ => "T") c5a = cacheKeyInput (fun _ => "T") c5b ∧
    c5a.model ≠ c5b.model := by decide

/-- Claim C5 (amended): the key depends only on the determining fields -
two requests identical in model, messages, max-tokens and temperature
share a key whatever the unrelated fields hold - but the map from those
fields to the digest input is not injective: the fields are concatenated
without separators, so requests differing in the fields (here in the
model name) can produce the identical digest input and hence the same
key under any digest and any temperature formatting. -/
theorem C5_fingerprint_amended (hash : String → String) (fmtTemp : ℚ → String)
    (r1 r2 : LLMRequest) :
    (fingerprintFieldsEq r1 r2 →
        generateCacheKey hash fmtTemp r1 = generateCacheKey hash fmtTemp r2) ∧
    cacheKeyInput fmtTemp c5a = cacheKeyInput fmtTemp c5b ∧
    c5a.model ≠ c5b.model := by
  refine ⟨fun h => generateCacheKey_congr hash fmtTemp r1 r2 h, ?_, by decide⟩
  unfold cacheKeyInput
  congr 1

/-- Witness for C5: two requests identical in the determining fields and
differing only in the prompt field share the key. -/
theorem C5_fingerprint_amended_witness :
    fingerprintFieldsEq w5a w5b ∧
    generateCacheKey (fun s => s) (fun _ => "T") w5a
      = generateCacheKey (fun s => s) (fun _ => "T") w5b :=
  ⟨by decide,
   (C5_fingerprint_amended (fun s => s) (fun _ => "T") w5a w5b).1 (by decide)⟩

/-- Claim C4 counterexample: with a budget of one request per minute, two
grants of the same credential before either report - the overlap any two
concurrent requests produce - followed by the two reports leave the
usage count at two, strictly above the budget: the claimed bound over
arbitrary acquire/release sequences fails. -/
theorem C4_counterexample :
    (KeyRotator.GetKey [c4Key] "openai" 10).2 = some 0 ∧
    (KeyRotator.GetKey (KeyRotator.GetKey [c4Key] "openai" 10).1 "openai" 10).2
      = some 0 ∧
    (KeyRotator.ReportUsage
        (KeyRotator.ReportUsage
          (KeyRotator.GetKey (KeyRotator.GetKey [c4Key] "openai" 10).1 "openai" 10).1
          0 10)
        0 10).map (fun k => k.usageCount) = [2] ∧
    ¬ usageBounded
        (KeyRotator.ReportUsage
          (KeyRotator.ReportUsage
            (KeyRotator.GetKey (KeyRotator.GetKey [c4Key] "openai" 10).1 "openai" 10).1
            0 10)
          0 10) := by decide

theorem usageBounded_cons (k : ApiKey) (rest : List ApiKey) :
    usageBounded (k :: rest)
      ↔ (0 ≤ k.usageCount ∧ k.usageCount ≤ k.config.maxRPM) ∧ usageBounded rest := by
  unfold usageBounded
  exact List.forall_mem_cons

theorem resetIfStale_bounded (now : Int) (k : ApiKey)
    (h : 0 ≤ k.usageCount ∧ k.usageCount ≤ k.config.maxRPM) :
    0 ≤ (resetIfStale now k).usageCount
      ∧ (resetIfStale now k).usageCount ≤ (resetIfStale now k).config.maxRPM := by
  unfold resetIfStale
  split
  · exact ⟨le_refl 0, le_trans h.1 h.2⟩
  · exact h

theorem getKeyAux_bounded (now : Int) (p : String) :
    ∀ keys, usageBounded keys → usageBounded (getKeyAux now p keys).1 := by
  intro keys
  induction keys with
  | nil => intro h; simpa [getKeyAux] using h
  | cons k rest ih =>
    intro hb
    obtain ⟨hk, hrest⟩ := (usageBounded_cons k rest).mp hb
    by_cases hp : k.config.provider = p
    · by_cases hlt : (resetIfStale now k).usageCount < k.config.maxRPM
      · simp only [getKeyAux, hp, if_pos, hlt, if_true]
        exact (usageBounded_cons _ _).mpr ⟨resetIfStale_bounded now k hk, hrest⟩
      · simp only [getKeyAux, hp, if_pos, hlt, if_false]
        exact (usageBounded_cons _ _).mpr ⟨resetIfStale_bounded now k hk, ih hrest⟩
    · simp only [getKeyAux, hp, if_false]
      exact (usageBounded_cons _ _).mpr ⟨hk, ih hrest⟩


theorem getKeyAux_grant (now : Int) (p : String) :
    ∀ keys keys' idx, getKeyAux now p keys = (keys', some idx) →
      ∃ k, keys'.get? idx = some k ∧ k.usageCount < k.config.maxRPM := by
  intro keys
  induction keys with
  | nil => intro keys' idx h; simp [getKeyAux] at h
  | cons k rest ih =>
    intro keys' idx h
    rw [show getKeyAux now p (k :: rest)
          = if k.config.provider = p then
              (if (resetIfStale now k).usageCount < k.config.maxRPM then
                (resetIfStale now k :: rest, some 0)
              else
                (resetIfStale now k :: (getKeyAux now p rest).1,
                 (getKeyAux now p rest).2.map (fun i => i + 1)))
            else
              (k :: (getKeyAux now p rest).1,
               (getKeyAux now p rest).2.map (fun i => i + 1)) from rfl] at h
    by_cases hp : k.config.provider = p
    · rw [if_pos hp] at h
      by_cases hlt : (resetIfStale now k).usageCount < k.config.maxRPM
      · rw [if_pos hlt] at h
        obtain ⟨h1, h2⟩ := Prod.mk.injEq .. ▸ h
        obtain rfl : (0 : Nat) = idx := Option.some.inj h2
        refine ⟨resetIfStale now k, ?_, ?_⟩
        · rw [← h1]; rfl
        · have hc : (resetIfStale now k).config = k.config := by
            unfold resetIfStale; split <;> rfl
          rw [hc]; exact hlt
      · rw [if_neg hlt] at h
        obtain ⟨h1, h2⟩ := Prod.mk.injEq .. ▸ h
        obtain ⟨j, hj, hidx⟩ := Option.map_eq_some'.mp h2
        obtain ⟨kk, hget, hbud⟩ :=
          ih (getKeyAux now p rest).1 j (Prod.ext_iff.mpr ⟨rfl, hj⟩)
        refine ⟨kk, ?_, hbud⟩
        rw [← h1, ← hidx]
        simpa using hget
    · rw [if_neg hp] at h
      obtain ⟨h1, h2⟩ := Prod.mk.injEq .. ▸ h
      obtain ⟨j, hj, hidx⟩ := Option.map_eq_some'.mp h2
      obtain ⟨kk, hget, hbud⟩ :=
        ih (getKeyAux now p rest).1 j (Prod.ext_iff.mpr ⟨rfl, hj⟩)
      refine ⟨kk, ?_, hbud⟩
      rw [← h1, ← hidx]
      simpa using hget

theorem reportUsage_bounded (now : Int) :
    ∀ keys idx k, usageBounded keys → keys.get? idx = some k →
      k.usageCount < k.config.maxRPM →
      usageBounded (KeyRotator.ReportUsage keys idx now) := by
  intro keys
  induction keys with
  | nil => intro idx k _ hg _; simp at hg
  | cons a rest ih =>
    intro idx k hb hg hlt
    obtain ⟨ha, hrest⟩ := (usageBounded_cons a rest).mp hb
    cases idx with
    | zero =>
      obtain rfl : a = k := Option.some.inj hg
      exact (usageBounded_cons _ _).mpr
        ⟨⟨le_trans ha.1 (le_of_lt (lt_add_one _)), by
            have := hlt
            simp only []
            omega⟩,
         hrest⟩
    | succ n =>
      have hg' : rest.get? n = some k := by simpa using hg
      exact (usageBounded_cons _ _).mpr ⟨ha, ih n k hrest hg' hlt⟩

/-- Claim C4 (amended): the pool preserves credential budgets under the
paired discipline acquire-then-release: a scan never pushes any usage
outside zero to budget, the credential an acquire grants has usage
strictly below its budget at grant time, and a release of a credential
whose usage is still below its budget keeps every usage within bounds.
Interleaved grants of the same credential before their releases - which
concurrent requests can produce - may exceed the budget, per the
counterexample. -/
theorem C4_usage_bounds_amended (keys : List ApiKey) (p : String) (now now' : Int) :
    (usageBounded keys → usageBounded (KeyRotator.GetKey keys p now).1) ∧
    (∀ keys' idx, KeyRotator.GetKey keys p now = (keys', some idx) →
        ∃ k, keys'.get? idx = some k ∧ k.usageCount < k.config.maxRPM) ∧
    (∀ keys' idx k, usageBounded keys' → keys'.get? idx = some k →
        k.usageCount < k.config.maxRPM →
        usageBounded (KeyRotator.ReportUsage keys' idx now')) :=
  ⟨getKeyAux_bounded now p keys,
   fun keys' idx h => getKeyAux_grant now p keys keys' idx h,
   fun keys' idx k => reportUsage_bounded now' keys' idx k⟩

/-- Witness for C4: all three amended parts at a pool of one credential
with budget one. -/
theorem C4_usage_bounds_amended_witness :
    (usageBounded [c4Key] ∧ usageBounded (KeyRotator.GetKey [c4Key] "openai" 10).1) ∧
    (∃ k, (KeyRotator.GetKey [c4Key] "openai" 10).1.get? 0 = some k ∧
        k.usageCount < k.config.maxRPM) ∧
    usageBounded (KeyRotator.ReportUsage [c4Key] 0 10) :=
  ⟨⟨by decide, (C4_usage_bounds_amended [c4Key] "openai" 10 10).1 (by decide)⟩,
   (C4_usage_bounds_amended [c4Key] "openai" 10 10).2.1
     (KeyRotator.GetKey [c4Key] "openai" 10).1 0 (by decide),
   (C4_usage_bounds_amended [c4Key] "openai" 10 10).2.2 [c4Key] 0 c4Key
     (by decide) (by decide) (by decide)⟩

theorem finishResponse_ok_cache (st : ServerState) (now : Int) (key : String)
    (cs : List (String × Nat)) (kIdx : Nat) (ls : LoopState) (b : Bytes)
    (h : (finishResponse st now key cs kIdx ls).outcome = .reply 200 b) :
    (finishResponse st now key cs kIdx ls).state.cache = Cache.Set st.cache now key b := by
  rcases ls with ⟨respo, closed, rot, calls⟩
  rcases respo with _ | ⟨s, bb⟩
  · simp [finishResponse] at h
  · cases closed with
    | true => simp [finishResponse] at h
    | false =>
      simp only [finishResponse, Bool.false_eq_true, if_false, Outcome.reply.injEq] at h ⊢
      obtain ⟨hs, hb⟩ := h
      subst hs
      subst hb
      simp

theorem proxyMiss_ok_cache (env : Env) (st : ServerState) (now : Int)
    (req : LLMRequest) (key : String) (b : Bytes) (r : HandleResult)
    (hr : proxyMiss env st now req key = r)
    (h : r.outcome = .reply 200 b) :
    r.state.cache = Cache.Set st.cache now key b := by
  unfold proxyMiss at hr
  dsimp only at hr
  split at hr
  · rw [← hr] at h
    simp at h
  · split at hr
    · rw [← hr] at h
      simp at h
    · split at hr
      · rw [← hr] at h
        simp at h
      · rw [← hr] at h ⊢
        exact finishResponse_ok_cache st now key _ _ _ b h

/-- Claim C6: two requests with identical fingerprint fields, the first
answered on a cache miss by a successful (200) response, the second
issued within the cache TTL: handling the second issues zero upstream
calls, leaves the whole server state - in particular every credential's
usage counter - untouched, and returns a payload byte-identical to the
first response. -/
theorem C6_cache_hit_second_request (env : Env) (st : ServerState)
    (now1 now2 : Int) (body1 body2 : String) (req1 req2 : LLMRequest) (b : Bytes)
    (hc1 : strStartsWith "#roxy" body1 = false)
    (hp1 : env.parse body1 = some req1)
    (hc2 : strStartsWith "#roxy" body2 = false)
    (hp2 : env.parse body2 = some req2)
    (hfields : fingerprintFieldsEq req1 req2)
    (hm : Cache.Get st.cache now1 (generateCacheKey env.hash env.fmtTemp req1) = none)
    (hout : (handleProxy env st now1 body1).outcome = .reply 200 b)
    (httl : now2 ≤ now1 + st.cache.ttl) :
    (handleProxy env (handleProxy env st now1 body1).state now2 body2).outcome
      = .reply 200 b ∧
    (handleProxy env (handleProxy env st now1 body1).state now2 body2).calls = [] ∧
    (handleProxy env (handleProxy env st now1 body1).state now2 body2).state
      = (handleProxy env st now1 body1).state := by
  have hm1 := handleProxy_as_miss env st now1 body1 req1 hc1 hp1 hm
  have hcache : (handleProxy env st now1 body1).state.cache
      = Cache.Set st.cache now1 (generateCacheKey env.hash env.fmtTemp req1) b := by
    rw [hm1]
    exact proxyMiss_ok_cache env st now1 req1 _ b _ rfl (by rw [← hm1]; exact hout)
  have hkey : generateCacheKey env.hash env.fmtTemp req2
      = generateCacheKey env.hash env.fmtTemp req1 :=
    generateCacheKey_congr env.hash env.fmtTemp req2 req1
      ⟨hfields.1.symm, hfields.2.1.symm, hfields.2.2.1.symm, hfields.2.2.2.symm⟩
  have hget : Cache.Get (handleProxy env st now1 body1).state.cache now2
      (generateCacheKey env.hash env.fmtTemp req2) = some b := by
    rw [hkey, hcache]
    have hn : ¬ (now1 + st.cache.ttl < now2) := not_lt.mpr httl
    simp [Cache.Get, Cache.Set, mapInsert, mapLookup, hn]
  have h2 : handleProxy env (handleProxy env st now1 body1).state now2 body2
      = { outcome := .reply 200 b, state := (handleProxy env st now1 body1).state,
          calls := [] } := by
    generalize (handleProxy env st now1 body1).state = st1 at hget ⊢
    simp [handleProxy, hc2, hp2, hget]
  exact ⟨by rw [h2], by rw [h2], by rw [h2]⟩

/-- Witness for C6: the same body twice against an upstream that always
succeeds; the second request is served from the cache. -/
theorem C6_cache_hit_second_request_witness :
    (handleProxy w6Env (handleProxy w6Env baseState 0 "B").state 10 "B").outcome
      = .reply 200 "OK" ∧
    (handleProxy w6Env (handleProxy w6Env baseState 0 "B").state 10 "B").calls = [] ∧
    (handleProxy w6Env (handleProxy w6Env baseState 0 "B").state 10 "B").state
      = (handleProxy w6Env baseState 0 "B").state :=
  C6_cache_hit_second_request w6Env baseState 0 10 "B" "B" w6Req w6Req "OK"
    (by decide) rfl (by decide) rfl (by decide) (by decide) (by decide) (by decide)

/-- Claim C10 counterexample: with no chutes credential configured, the
chutes-bound request is answered 429 no-available-keys, not 400
Unsupported provider, and nothing is charged: the claim's universal form
fails whenever the resolved provider has no grantable credential. -/
theorem C10_counterexample :
    (handleProxy c10Env baseState 0 "body").outcome
      = .reply 429 "No available API keys" ∧
    (handleProxy c10Env baseState 0 "body").outcome
      ≠ .reply 400 "Unsupported provider" ∧
    (handleProxy c10Env baseState 0 "body").calls = [] ∧
    (handleProxy c10Env baseState 0 "body").state.rotator.map (fun k => k.usageCount)
      = [0] := by decide

/-- Claim C10 (amended): for a cache-missing request resolved to the
openrouter or chutes provider, when a credential of that provider is
grantable the handler replies 400 Unsupported provider, makes no
upstream call, and the acquired credential is still charged one usage
unit by the deferred report; when none is grantable it replies 429
no-available-keys, also with no upstream call and nothing charged. -/
theorem C10_unsupported_provider_amended (env : Env) (st : ServerState)
    (now : Int) (body : String) (req : LLMRequest)
    (cs : List (String × Nat)) (rot1 : List ApiKey) (tm pv : String)
    (hc : strStartsWith "#roxy" body = false)
    (hp : env.parse body = some req)
    (hm : Cache.Get st.cache now (generateCacheKey env.hash env.fmtTemp req) = none)
    (hres : getTargetModelAux now env.randIntn st.modelRules st.modelCounters st.rotator req.model
        = (cs, rot1, tm, pv))
    (hpv : pv = "openrouter" ∨ pv = "chutes") :
    (∀ rot2 idx, KeyRotator.GetKey rot1 pv now = (rot2, some idx) →
        handleProxy env st now body
          = { outcome := .reply 400 "Unsupported provider"
              state := { st with
                         modelCounters := cs
                         rotator := KeyRotator.ReportUsage rot2 idx now }
              calls := [] }) ∧
    (∀ rot2, KeyRotator.GetKey rot1 pv now = (rot2, none) →
        handleProxy env st now body
          = { outcome := .reply 429 "No available API keys"
              state := { st with modelCounters := cs, rotator := rot2 }
              calls := [] }) := by
  have hurl : providerTargetURL st.providers pv = none := by
    rcases hpv with h | h <;> subst h <;> rfl
  have hbase := handleProxy_as_miss env st now body req hc hp hm
  constructor
  · intro rot2 idx hkey
    rw [hbase]
    unfold proxyMiss
    rw [hres]
    dsimp only
    rw [hkey]
    dsimp only
    rw [hurl]
  · intro rot2 hkey
    rw [hbase]
    unfold proxyMiss
    rw [hres]
    dsimp only
    rw [hkey]

/-- Witness for C10 with a grantable chutes credential: the 400 reply
with the credential charged. -/
theorem C10_unsupported_provider_amended_witness :
    handleProxy c10Env c10WState 0 "body"
      = { outcome := .reply 400 "Unsupported provider"
          state := { c10WState with
                     modelCounters := []
                     rotator := KeyRotator.ReportUsage [chKey] 0 0 }
          calls := [] } :=
  (C10_unsupported_provider_amended c10Env c10WState 0 "body" c10Req
      [] [chKey] "chutes/x" "chutes" (by decide) rfl (by decide) (by decide)
      (Or.inr rfl)).1 [chKey] 0 (by decide)
